import Mathlib

/-!
Verification development for the registration subsystem of the gopadel backend.

The definitions below are a shallow embedding of the Python source:
  - registrations/services/registration_service.py   (RegistrationService)
  - registrations/repositories/registration_repository.py (RegistrationRepository)
  - registrations/schemas/registration_serializers.py (RegistrationWriteSerializer
    and RegistrationUnavailabilitySerializer)
  - registrations/controllers/registration_controller.py
  - registrations/models/registration.py and registration_unavailability.py
    (database-level constraints)

Modelling conventions:
  - time-of-day values are modelled as natural numbers (any linearly ordered
    carrier works, since the code only compares them with < and =);
  - day_of_week is an Int, so the check `dow < 0 or dow > 4` is kept verbatim;
  - Django querysets become lists of rows; a `DB` record carries the tables;
  - `transaction.atomic` becomes an explicit wrapper that restores the initial
    state on any error;
  - Python exceptions (ValidationError, IntegrityError) become an `Except`
    monad over the inductive error type `RegError`;
  - `full_clean` is modelled by the field validator relevant here
    (MinValueValidator(0) on paid_amount); length limits of text fields are
    outside the scope of the claims.
-/

/-- One candidate unavailability block, the shape
`{day_of_week, start_time, end_time}` handled by the validator. -/
structure SlotRec where
  day_of_week : Int
  start_time : Nat
  end_time : Nat
deriving DecidableEq, Repr

/-- Domain errors raised by the registration subsystem.  Each constructor
corresponds to one `ValidationError` / `IntegrityError` site in the source. -/
inductive RegError where
  /-- a PrimaryKeyRelatedField received an id that does not resolve -/
  | badReference
  /-- MinValueValidator(0) on paid_amount failed -/
  | invalidAmount
  /-- player and partner are the same person (serializer validate, step 1) -/
  | invalidPair
  /-- no tournament category could be determined (serializer validate) -/
  | noCategory
  /-- paid_amount differs from the category price (serializer validate, step 2) -/
  | priceMismatch
  /-- day_of_week outside 0..4 -/
  | invalidSlotRange
  /-- start_time not strictly before end_time -/
  | invalidSlotOrder
  /-- two identical (day, start, end) blocks in one payload -/
  | duplicateSlot
  /-- two blocks of the same day overlap; carries the day reported -/
  | overlappingSlot (day : Int)
  /-- the player already appears in the player role in this category -/
  | duplicatePlayer
  /-- the partner already appears in the partner role in this category -/
  | duplicatePartner
  /-- the exact pair (in either order) already exists in this category -/
  | duplicatePair
  /-- registration not found -/
  | notFound
  /-- database-level constraint violation (IntegrityError) -/
  | storageConflict
deriving DecidableEq, Repr

/-!
Embedding of `RegistrationService._validate_and_normalize_unavailability`.

The Python method has two phases over the incoming list:
  (a) a single pass that checks, per block, day_of_week in 0..4,
      start_time < end_time and no exact duplicate (via a `seen` set), while
      collecting the blocks per day (`by_dow`, a dict keyed by day in order of
      first occurrence, each group in input order) and the normalized output
      list (which reproduces the input fields unchanged);
  (b) per day group: sort the (start, end) ranges by start (Python sort is
      stable) and scan pairwise, failing when a start is strictly below the
      previous end.
-/

/-- Phase (a) of the validator: the per-block structural checks, carrying the
`seen` set of already accepted blocks (as a list). -/
def phaseA : List SlotRec → List SlotRec → Except RegError Unit
  | [], _ => .ok ()
  | b :: rest, seen =>
    if b.day_of_week < 0 ∨ 4 < b.day_of_week then .error .invalidSlotRange
    else if ¬ b.start_time < b.end_time then .error .invalidSlotOrder
    else if b ∈ seen then .error .duplicateSlot
    else phaseA rest (b :: seen)

/-- The (start, end) ranges of the blocks of day `d`, in input order
(the `by_dow.setdefault(dow, []).append(...)` accumulation). -/
def groupRanges (l : List SlotRec) (d : Int) : List (Nat × Nat) :=
  (l.filter (fun s => s.day_of_week == d)).map (fun s => (s.start_time, s.end_time))

/-- Stable insertion of a range into an already processed prefix, placing the
new range after every range whose start is not greater. -/
def insertRange : List (Nat × Nat) → (Nat × Nat) → List (Nat × Nat)
  | [], x => [x]
  | y :: ys, x => if y.1 ≤ x.1 then y :: insertRange ys x else x :: y :: ys

/-- Stable sort of the ranges by start component, the embedding of
`ranges.sort(key=lambda r: r[0])` (Python list sort is stable). -/
def sortRanges (l : List (Nat × Nat)) : List (Nat × Nat) :=
  l.foldl insertRange []

/-- The pairwise overlap scan of one (sorted) day group, carrying the previous
range, mirroring the `prev_start, prev_end` loop of the source. -/
def scanRanges (d : Int) : Option (Nat × Nat) → List (Nat × Nat) → Except RegError Unit
  | _, [] => .ok ()
  | none, r :: rest => scanRanges d (some r) rest
  | some p, r :: rest =>
    if r.1 < p.2 then .error (.overlappingSlot d)
    else scanRanges d (some r) rest

/-- First occurrences of a list of keys, in order, skipping keys already in
the seen accumulator. -/
def firstOccs : List Int → List Int → List Int
  | [], _ => []
  | d :: rest, seen =>
    if d ∈ seen then firstOccs rest seen
    else d :: firstOccs rest (d :: seen)

/-- The distinct days of the list, in order of first occurrence — the key
order of the `by_dow` dict. -/
def daysInOrder (l : List SlotRec) : List Int :=
  firstOccs (l.map (fun s => s.day_of_week)) []

/-- Phase (b) iterated over a given list of days. -/
def phaseBGo (l : List SlotRec) : List Int → Except RegError Unit
  | [] => .ok ()
  | d :: ds =>
    match scanRanges d none (sortRanges (groupRanges l d)) with
    | .error e => .error e
    | .ok () => phaseBGo l ds

/-- Phase (b) of the validator: the per-day overlap detection over the groups
built during phase (a). -/
def phaseB (l : List SlotRec) : Except RegError Unit :=
  phaseBGo l (daysInOrder l)

/-- The full validator `_validate_and_normalize_unavailability`: `None` or an
empty list yield `[]`; otherwise both phases run and the normalized list (the
input blocks, fields unchanged) is returned. -/
def validateUnavailability : Option (List SlotRec) → Except RegError (List SlotRec)
  | none => .ok []
  | some l =>
    if l.isEmpty then .ok []
    else
      match phaseA l [] with
      | .error e => .error e
      | .ok () =>
        match phaseB l with
        | .error e => .error e
        | .ok () => .ok l

/-- Claim-side reading of the overlap rule: scanning a list of ranges pairwise,
some start is strictly below the previous end. -/
def hasAdjOverlap : List (Nat × Nat) → Bool
  | r :: s :: rest => (s.1 < r.2) || hasAdjOverlap (s :: rest)
  | _ => false

/-- A day of the list has an overlap in the sense of the claim: in its group,
sorted by start, some start is strictly below the previous end. -/
def dayOverlaps (l : List SlotRec) (d : Int) : Bool :=
  hasAdjOverlap (sortRanges (groupRanges l d))

/-!
Data model.  One row per table, mirroring the Django models
`Registration`, `RegistrationUnavailability` and `TournamentCategory`
(for the latter only the fields the registration subsystem reads).
-/

/-- One row of the registrations table. -/
structure RegRow where
  id : Nat
  tournament_category : Nat
  player : Nat
  partner : Nat
  paid_amount : Int
  payment_reference : String
  comment : String
  is_active : Bool
  payment_status : String
deriving DecidableEq, Repr

/-- One row of the registration_unavailability_slots table. -/
structure SlotRow where
  registration : Nat
  day_of_week : Int
  start_time : Nat
  end_time : Nat
deriving DecidableEq, Repr

/-- One row of the tournament_categories table (the fields read here). -/
structure TCRow where
  id : Nat
  price : Int
deriving DecidableEq, Repr

/-- The relational store: the tables touched by the registration subsystem,
plus the id counter used for new registration rows. -/
structure DB where
  tcs : List TCRow
  players : List Nat
  regs : List RegRow
  slots : List SlotRow
  nextId : Nat
deriving DecidableEq, Repr

/-- The slot rows belonging to a registration. -/
def slotsOf (db : DB) (rid : Nat) : List SlotRow :=
  db.slots.filter (fun s => s.registration == rid)

/-- The slot row a validated block is persisted as. -/
def rowOfSlot (rid : Nat) (s : SlotRec) : SlotRow :=
  ⟨rid, s.day_of_week, s.start_time, s.end_time⟩

/-!
Embedding of `RegistrationRepository` (registration_repository.py) together
with the database constraints declared in the models.
-/

/-- Embedding of `RegistrationRepository.exists_player_in_tc`. -/
def exists_player_in_tc (db : DB) (tc_id player_id : Nat) : Bool :=
  db.regs.any (fun r => r.tournament_category == tc_id && r.player == player_id)

/-- Embedding of `RegistrationRepository.exists_partner_in_tc`. -/
def exists_partner_in_tc (db : DB) (tc_id partner_id : Nat) : Bool :=
  db.regs.any (fun r => r.tournament_category == tc_id && r.partner == partner_id)

/-- Embedding of `RegistrationRepository.exists_pair_in_tc`: the exact pair in either
order within the tournament category. -/
def exists_pair_in_tc (db : DB) (tc_id player_id partner_id : Nat) : Bool :=
  db.regs.any (fun r => r.tournament_category == tc_id &&
    ((r.player == player_id && r.partner == partner_id) ||
     (r.player == partner_id && r.partner == player_id)))

/-- The registration-table constraints of `Registration.Meta.constraints`,
checked against a prospective row: the check constraints
(player distinct from partner, paid_amount nonnegative) and the unique
constraints on (tc, player), (tc, partner) and (tc, player, partner),
each ranging over the other rows. -/
def regViolates (regs : List RegRow) (row : RegRow) : Bool :=
  row.player == row.partner || row.paid_amount < 0 ||
  regs.any (fun r => !(r.id == row.id) && r.tournament_category == row.tournament_category &&
    (r.player == row.player || r.partner == row.partner ||
     (r.player == row.player && r.partner == row.partner)))

/-- The slot-table constraints of `RegistrationUnavailability.Meta.constraints`
against a prospective row: start before end, and no exact duplicate block for
the same registration among the existing rows. -/
def slotViolates (slots : List SlotRow) (s : SlotRow) : Bool :=
  !(decide (s.start_time < s.end_time)) ||
  slots.any (fun t => t.registration == s.registration && t.day_of_week == s.day_of_week &&
    t.start_time == s.start_time && t.end_time == s.end_time)

/-- Embedding of `RegistrationRepository.create` (`Registration.objects.create`): insert the
row, surfacing a constraint violation as an IntegrityError. -/
def repoCreate (db : DB) (row : RegRow) : Except RegError DB :=
  if regViolates db.regs row then .error .storageConflict
  else .ok { db with regs := db.regs ++ [row], nextId := db.nextId + 1 }

/-- Bulk insert of validated slot blocks for a registration
(`RegistrationUnavailability.objects.bulk_create` with ignore_conflicts=False):
every row is inserted, and any constraint violation aborts with an
IntegrityError. -/
def insertSlots (db : DB) (rid : Nat) : List SlotRec → Except RegError DB
  | [] => .ok db
  | s :: rest =>
    let row := rowOfSlot rid s
    if slotViolates db.slots row then .error .storageConflict
    else insertSlots { db with slots := db.slots ++ [row] } rid rest

/-!
Embedding of `RegistrationService.create` (registration_service.py).
The keyword arguments with defaults (`payment_reference=""`, `comment=""`,
`is_active=None`, `payment_status=None`, `unavailability=None`) are modelled
as `Option` fields, `none` meaning the argument was not supplied.
-/

/-- The arguments of `RegistrationService.create`, ids already normalized. -/
structure ServiceArgs where
  tournament_category : Nat
  player : Nat
  partner : Nat
  paid_amount : Int
  payment_reference : Option String := none
  comment : Option String := none
  is_active : Option Bool := none
  payment_status : Option String := none
  unavailability : Option (List SlotRec) := none
deriving DecidableEq, Repr

/-- The registration row built by `RegistrationService.create`: the `data`
dict (with the `or`-defaults and strips applied) plus the fresh id the insert
will assign. -/
def buildRow (db : DB) (a : ServiceArgs) : RegRow :=
  { id := db.nextId
    tournament_category := a.tournament_category
    player := a.player
    partner := a.partner
    paid_amount := a.paid_amount
    payment_reference := (a.payment_reference.getD "").trim
    comment := (a.comment.getD "").trim
    is_active := a.is_active.getD true
    payment_status := a.payment_status.getD "" }

/-- The body of `RegistrationService.create`: duplicate checks, slot
validation, `full_clean` (MinValueValidator on paid_amount), then the inserts.
Any error escapes before further writes happen. -/
def serviceCreate (db : DB) (a : ServiceArgs) : Except RegError (DB × RegRow) :=
  if exists_player_in_tc db a.tournament_category a.player then .error .duplicatePlayer
  else if exists_partner_in_tc db a.tournament_category a.partner then .error .duplicatePartner
  else if exists_pair_in_tc db a.tournament_category a.player a.partner then .error .duplicatePair
  else
    match validateUnavailability a.unavailability with
    | .error e => .error e
    | .ok slots =>
      if (buildRow db a).paid_amount < 0 then .error .invalidAmount
      else
        match repoCreate db (buildRow db a) with
        | .error e => .error e
        | .ok db1 =>
          if slots.isEmpty then .ok (db1, buildRow db a)
          else
            match insertSlots db1 (buildRow db a).id slots with
            | .error e => .error e
            | .ok db2 => .ok (db2, buildRow db a)

/-- Embedding of `RegistrationService.create` as seen through `transaction.atomic`: on any
error the initial state is restored (rollback), on success the final state is
committed. -/
def serviceCreateTx (db : DB) (a : ServiceArgs) : DB × Except RegError RegRow :=
  match serviceCreate db a with
  | .ok (db1, row) => (db1, .ok row)
  | .error e => (db, .error e)

/-!
Embedding of `RegistrationWriteSerializer` (registration_serializers.py).

DRF first runs the field phase (PrimaryKeyRelatedField resolution, the
model-derived field validators, and the child serializer validation of every
unavailability block) and only then the cross-field `validate` method.
-/

/-- The write payload of a POST: required fields of the write contract plus
the optional ones (`is_active`, `payment_status`, `unavailability`,
`payment_reference`, `comment`); `none` means the key was absent. -/
structure CreatePayload where
  tournament_category : Nat
  player : Nat
  partner : Nat
  paid_amount : Int
  payment_reference : Option String := none
  comment : Option String := none
  is_active : Option Bool := none
  payment_status : Option String := none
  unavailability : Option (List SlotRec) := none
deriving DecidableEq, Repr

/-- The partial payload of a PATCH: every key optional. -/
structure PatchPayload where
  tournament_category : Option Nat := none
  player : Option Nat := none
  partner : Option Nat := none
  paid_amount : Option Int := none
  payment_reference : Option String := none
  comment : Option String := none
  is_active : Option Bool := none
  payment_status : Option String := none
  unavailability : Option (List SlotRec) := none
deriving DecidableEq, Repr

/-- The per-block validation of `RegistrationUnavailabilitySerializer`:
`validate_day_of_week` restricts to 0..4 and `validate` requires
start before end. -/
def childValidateSlots : List SlotRec → Except RegError Unit
  | [] => .ok ()
  | s :: rest =>
    if s.day_of_week < 0 ∨ 4 < s.day_of_week then .error .invalidSlotRange
    else if ¬ s.start_time < s.end_time then .error .invalidSlotOrder
    else childValidateSlots rest

/-- The exact-duplicate pass of the parent `validate` over the payload blocks,
with its `seen` set of (day, start, end) keys. -/
def dupCheck : List SlotRec → List SlotRec → Except RegError Unit
  | [], _ => .ok ()
  | b :: rest, seen =>
    if b ∈ seen then .error .duplicateSlot
    else dupCheck rest (b :: seen)

/-- The unavailability part of the parent `validate`: exact duplicates first,
then the same group/sort/pairwise overlap scan as the service validator. -/
def serializerSlotChecks (unav : Option (List SlotRec)) : Except RegError Unit :=
  match unav with
  | none => .ok ()
  | some l =>
    match dupCheck l [] with
    | .error e => .error e
    | .ok () => phaseB l

/-- True when an optional foreign key resolves (an absent key resolves
trivially). -/
def resolves (o : Option Nat) (ok : Nat → Bool) : Bool :=
  match o with
  | none => true
  | some x => ok x

/-- The DRF field phase of a POST: the three PrimaryKeyRelatedFields must
resolve, paid_amount inherits MinValueValidator(0) from the model, and every
unavailability block passes the child serializer. -/
def fieldPhaseCreate (db : DB) (p : CreatePayload) : Except RegError Unit :=
  if (db.tcs.find? (fun t => t.id == p.tournament_category)).isNone then .error .badReference
  else if ¬ db.players.contains p.player then .error .badReference
  else if ¬ db.players.contains p.partner then .error .badReference
  else if p.paid_amount < 0 then .error .invalidAmount
  else
    match p.unavailability with
    | none => .ok ()
    | some l => childValidateSlots l

/-- The DRF field phase of a PATCH: same checks, but only for the keys
present in the payload. -/
def fieldPhasePatch (db : DB) (p : PatchPayload) : Except RegError Unit :=
  if ¬ resolves p.tournament_category (fun t => (db.tcs.find? (fun c => c.id == t)).isSome) then
    .error .badReference
  else if ¬ resolves p.player db.players.contains then .error .badReference
  else if ¬ resolves p.partner db.players.contains then .error .badReference
  else if (p.paid_amount.getD 0) < 0 then .error .invalidAmount
  else
    match p.unavailability with
    | none => .ok ()
    | some l => childValidateSlots l

/-- Embedding of `RegistrationWriteSerializer.validate` on a create (no instance): player
distinct from partner, paid_amount equal to the category price, then the
light unavailability checks. -/
def crossValidateCreate (db : DB) (p : CreatePayload) : Except RegError Unit :=
  if p.player == p.partner then .error .invalidPair
  else
    match db.tcs.find? (fun t => t.id == p.tournament_category) with
    | none => .error .noCategory
    | some t =>
      if ¬ p.paid_amount == t.price then .error .priceMismatch
      else serializerSlotChecks p.unavailability

/-- Embedding of `RegistrationWriteSerializer.validate` on an update: each checked value
falls back to the stored instance when the key is absent from the payload. -/
def crossValidatePatch (db : DB) (reg : RegRow) (p : PatchPayload) : Except RegError Unit :=
  let player := p.player.getD reg.player
  let partner := p.partner.getD reg.partner
  let tcId := p.tournament_category.getD reg.tournament_category
  let paid := p.paid_amount.getD reg.paid_amount
  if player == partner then .error .invalidPair
  else
    match db.tcs.find? (fun t => t.id == tcId) with
    | none => .error .noCategory
    | some t =>
      if ¬ paid == t.price then .error .priceMismatch
      else serializerSlotChecks p.unavailability

/-- The field assignment loop of `RegistrationWriteSerializer.update`:
`setattr` for every key present in the payload (the update path applies no
strip to text fields). -/
def applyPatch (reg : RegRow) (p : PatchPayload) : RegRow :=
  { reg with
    tournament_category := p.tournament_category.getD reg.tournament_category
    player := p.player.getD reg.player
    partner := p.partner.getD reg.partner
    paid_amount := p.paid_amount.getD reg.paid_amount
    payment_reference := p.payment_reference.getD reg.payment_reference
    comment := p.comment.getD reg.comment
    is_active := p.is_active.getD reg.is_active
    payment_status := p.payment_status.getD reg.payment_status }

/-!
Embedding of the controller (registration_controller.py).  The HTTP outcome
is the final database state, the response status, and the error reported (if
any).  Both ValidationError and IntegrityError are answered with 400 by the
source; 201/200 signal success, 404 a missing registration.
-/

/-- The HTTP statuses the registration endpoints can produce. -/
inductive HttpStatus where
  | s200
  | s201
  | s400
  | s404
  | s409
deriving DecidableEq, Repr

/-- The service arguments the controller builds from validated POST data. -/
def argsOfPayload (p : CreatePayload) : ServiceArgs :=
  { tournament_category := p.tournament_category
    player := p.player
    partner := p.partner
    paid_amount := p.paid_amount
    payment_reference := p.payment_reference
    comment := p.comment
    is_active := p.is_active
    payment_status := p.payment_status
    unavailability := p.unavailability }

/-- Embedding of `RegistrationListCreateView.post`: serializer validation (field phase then
cross-field validate), then the service create inside its transaction; every
failure branch answers 400, success answers 201. -/
def postRegistration (db : DB) (p : CreatePayload) : DB × HttpStatus × Option RegError :=
  match fieldPhaseCreate db p with
  | .error e => (db, .s400, some e)
  | .ok () =>
    match crossValidateCreate db p with
    | .error e => (db, .s400, some e)
    | .ok () =>
      match serviceCreateTx db (argsOfPayload p) with
      | (_, .error e) => (db, .s400, some e)
      | (db1, .ok _) => (db1, .s201, none)

/-- The registrations table after the saved row replaces the row of its id. -/
def regsUpdated (db : DB) (pk : Nat) (row : RegRow) : DB :=
  { db with regs := db.regs.map (fun r => if r.id == pk then row else r) }

/-- The store after the delete of every slot row of one registration
(`RegistrationUnavailability.objects.filter(registration=instance).delete()`). -/
def clearSlots (db : DB) (pk : Nat) : DB :=
  { db with slots := db.slots.filter (fun s => !(s.registration == pk)) }

/-- Embedding of `RegistrationDetailView.patch`: load the registration (404 when absent),
run the serializer with partial data, then `serializer.update` inside its
transaction: apply the simple fields, `full_clean` and save (an IntegrityError
answers 400 and rolls everything back), and, only when the unavailability key
is present, delete all existing slots and bulk insert the new ones. -/
def patchRegistration (db : DB) (pk : Nat) (p : PatchPayload) : DB × HttpStatus × Option RegError :=
  match db.regs.find? (fun r => r.id == pk) with
  | none => (db, .s404, some .notFound)
  | some reg =>
    match fieldPhasePatch db p with
    | .error e => (db, .s400, some e)
    | .ok () =>
      match crossValidatePatch db reg p with
      | .error e => (db, .s400, some e)
      | .ok () =>
        if (applyPatch reg p).paid_amount < 0 then (db, .s400, some .invalidAmount)
        else if regViolates (db.regs.filter (fun r => !(r.id == pk))) (applyPatch reg p) then
          (db, .s400, some .storageConflict)
        else
          match p.unavailability with
          | none => (regsUpdated db pk (applyPatch reg p), .s200, none)
          | some unav =>
            match insertSlots (clearSlots (regsUpdated db pk (applyPatch reg p)) pk) pk unav with
            | .error _ => (db, .s400, some .storageConflict)
            | .ok db3 => (db3, .s200, none)

/-!
Lemmas about the slot validator.
-/

/-- Phase (a) succeeds on a list whose blocks all pass the structural checks,
have no duplicates among themselves, and avoid the seen set. -/
lemma phaseA_ok : ∀ (l seen : List SlotRec),
    (∀ b ∈ l, 0 ≤ b.day_of_week ∧ b.day_of_week ≤ 4 ∧ b.start_time < b.end_time ∧ b ∉ seen) →
    l.Nodup → phaseA l seen = .ok () := by
  intro l
  induction l with
  | nil => intro seen _ _; rfl
  | cons b rest ih =>
    intro seen h hnd
    obtain ⟨hb1, hb2, hb3, hb4⟩ := h b (List.mem_cons_self b rest)
    rw [phaseA, if_neg (by omega), if_neg (by simpa using hb3), if_neg hb4]
    apply ih
    · intro x hx
      obtain ⟨hx1, hx2, hx3, hx4⟩ := h x (List.mem_cons_of_mem b hx)
      refine ⟨hx1, hx2, hx3, ?_⟩
      intro hmem
      rcases List.mem_cons.mp hmem with hxb | hxs
      · exact (List.nodup_cons.mp hnd).1 (hxb ▸ hx)
      · exact hx4 hxs
    · exact (List.nodup_cons.mp hnd).2

/-- The pairwise scan with a previous range is the adjacency test of the
claim on the list with that range put in front. -/
lemma scan_some_eq (d : Int) : ∀ (rs : List (Nat × Nat)) (p : Nat × Nat),
    scanRanges d (some p) rs =
      if hasAdjOverlap (p :: rs) then .error (.overlappingSlot d) else .ok () := by
  intro rs
  induction rs with
  | nil => intro p; simp [scanRanges, hasAdjOverlap]
  | cons r rest ih =>
    intro p
    rw [scanRanges]
    by_cases h : r.1 < p.2
    · simp [h, hasAdjOverlap]
    · rw [if_neg h, ih, hasAdjOverlap]
      simp [h]

/-- The full pairwise scan of one group decides exactly the adjacency test of
the claim. -/
lemma scan_none_eq (d : Int) (rs : List (Nat × Nat)) :
    scanRanges d none rs =
      if hasAdjOverlap rs then .error (.overlappingSlot d) else .ok () := by
  cases rs with
  | nil => simp [scanRanges, hasAdjOverlap]
  | cons r rest => rw [scanRanges, scan_some_eq]

/-- Phase (b) over a day list reports the first day whose sorted group fails
the adjacency test, and succeeds when no day fails it. -/
lemma phaseBGo_eq (l : List SlotRec) : ∀ ds : List Int,
    phaseBGo l ds =
      match ds.find? (fun d => dayOverlaps l d) with
      | some d => .error (.overlappingSlot d)
      | none => .ok () := by
  intro ds
  induction ds with
  | nil => rfl
  | cons d ds ih =>
    rw [phaseBGo, scan_none_eq]
    by_cases h : dayOverlaps l d
    · rw [if_pos (by exact h), List.find?_cons_of_pos _ (by exact h)]
    · rw [if_neg (by simpa using h), List.find?_cons_of_neg _ (by simpa using h), ih]

/-- When the validator accepts, it returns its input unchanged. -/
lemma validate_ok_inv {u : Option (List SlotRec)} {n : List SlotRec}
    (h : validateUnavailability u = .ok n) :
    u = none ∧ n = [] ∨ u = some n := by
  match u with
  | none =>
    left
    refine ⟨rfl, ?_⟩
    simpa [validateUnavailability] using h.symm
  | some l =>
    by_cases hl : l.isEmpty
    · rw [List.isEmpty_iff.mp hl] at h ⊢
      right
      have h2 : ([] : List SlotRec) = n := by
        simpa [validateUnavailability] using h
      rw [← h2]
    · right
      simp only [validateUnavailability, if_neg hl] at h
      cases hA : phaseA l [] with
      | error e => rw [hA] at h; cases h
      | ok u' =>
        rw [hA] at h
        cases hB : phaseB l with
        | error e => rw [hB] at h; cases h
        | ok u'' =>
          rw [hB] at h
          cases h
          rfl

/-!
Lemmas about the persistence operations.
-/

/-- A successful repository create appends exactly the new row and bumps the
id counter. -/
lemma repoCreate_ok_inv {db : DB} {row : RegRow} {db1 : DB}
    (h : repoCreate db row = .ok db1) :
    db1 = { db with regs := db.regs ++ [row], nextId := db.nextId + 1 } := by
  rw [repoCreate] at h
  split at h
  · cases h
  · cases h; rfl

/-- A successful bulk slot insert leaves every other table unchanged and
appends exactly the rows of the validated blocks. -/
lemma insertSlots_ok_inv : ∀ (blocks : List SlotRec) (db : DB) (rid : Nat) (db2 : DB),
    insertSlots db rid blocks = .ok db2 →
    db2.tcs = db.tcs ∧ db2.players = db.players ∧ db2.regs = db.regs ∧
      db2.nextId = db.nextId ∧ db2.slots = db.slots ++ blocks.map (rowOfSlot rid) := by
  intro blocks
  induction blocks with
  | nil =>
    intro db rid db2 h
    simp only [insertSlots] at h
    cases h
    simp
  | cons s rest ih =>
    intro db rid db2 h
    rw [insertSlots] at h
    split at h
    · cases h
    · obtain ⟨h1, h2, h3, h4, h5⟩ := ih _ rid db2 h
      refine ⟨h1, h2, h3, h4, ?_⟩
      simpa [List.append_assoc] using h5

/-- Inversion of a successful service create: the persisted row is the one
built from the arguments, it is in the final registrations table, and every
validated slot block is in the final slots table. -/
lemma serviceCreate_ok_inv {db : DB} {a : ServiceArgs} {db1 : DB} {r : RegRow}
    (h : serviceCreate db a = .ok (db1, r)) :
    r = buildRow db a ∧ r ∈ db1.regs ∧
      ∀ l, a.unavailability = some l → ∀ s ∈ l, rowOfSlot r.id s ∈ db1.slots := by
  rw [serviceCreate] at h
  split at h
  · cases h
  split at h
  · cases h
  split at h
  · cases h
  split at h
  case _ e heq => cases h
  case _ blocks hv =>
    split at h
    · cases h
    split at h
    case _ e heq => cases h
    case _ dbA hrep =>
      have hdbA := repoCreate_ok_inv hrep
      split at h
      case isTrue hemp =>
        cases h
        refine ⟨rfl, ?_, ?_⟩
        · rw [hdbA]
          exact List.mem_append_right _ (List.mem_singleton.mpr rfl)
        · intro l hl s hs
          rcases validate_ok_inv hv with ⟨hn, he⟩ | hsome
          · rw [hl] at hn; cases hn
          · rw [hl] at hsome
            cases hsome
            rw [List.isEmpty_iff.mp hemp] at hs
            cases hs
      case isFalse hemp =>
        split at h
        case _ e heq => cases h
        case _ db2 hins =>
          cases h
          obtain ⟨_, _, hregs, _, hslots⟩ := insertSlots_ok_inv _ _ _ _ hins
          refine ⟨rfl, ?_, ?_⟩
          · rw [hregs, hdbA]
            exact List.mem_append_right _ (List.mem_singleton.mpr rfl)
          · intro l hl s hs
            rcases validate_ok_inv hv with ⟨hn, _⟩ | hsome
            · rw [hl] at hn; cases hn
            · rw [hl] at hsome
              cases hsome
              rw [hslots]
              exact List.mem_append_right _ (List.mem_map_of_mem _ hs)

/-!
Claim theorems.
-/

/-- C1: when an existing registration of the same tournament category shares
the player role, or the partner role, or the unordered pair in either order
with a proposed create, the service create fails with one of the duplicate
errors and the store is left unchanged. -/
theorem create_rejects_duplicates (db : DB) (a : ServiceArgs) (A : RegRow)
    (hA : A ∈ db.regs) (htc : A.tournament_category = a.tournament_category)
    (hdup : A.player = a.player ∨ A.partner = a.partner ∨
      (A.player = a.player ∧ A.partner = a.partner) ∨
      (A.player = a.partner ∧ A.partner = a.player)) :
    (serviceCreateTx db a).1 = db ∧
    ∃ e, (serviceCreateTx db a).2 = .error e ∧
      (e = .duplicatePlayer ∨ e = .duplicatePartner ∨ e = .duplicatePair) := by
  cases h1 : exists_player_in_tc db a.tournament_category a.player with
  | true =>
    refine ⟨by simp [serviceCreateTx, serviceCreate, h1], .duplicatePlayer,
      by simp [serviceCreateTx, serviceCreate, h1], Or.inl rfl⟩
  | false =>
  cases h2 : exists_partner_in_tc db a.tournament_category a.partner with
  | true =>
    refine ⟨by simp [serviceCreateTx, serviceCreate, h1, h2], .duplicatePartner,
      by simp [serviceCreateTx, serviceCreate, h1, h2], Or.inr (Or.inl rfl)⟩
  | false =>
  cases h3 : exists_pair_in_tc db a.tournament_category a.player a.partner with
  | true =>
    refine ⟨by simp [serviceCreateTx, serviceCreate, h1, h2, h3], .duplicatePair,
      by simp [serviceCreateTx, serviceCreate, h1, h2, h3], Or.inr (Or.inr rfl)⟩
  | false =>
    exfalso
    simp only [exists_player_in_tc, exists_partner_in_tc, exists_pair_in_tc,
      List.any_eq_false, Bool.and_eq_true, Bool.or_eq_true, beq_iff_eq] at h1 h2 h3
    rcases hdup with hd | hd | ⟨hd, _⟩ | ⟨hd1, hd2⟩
    · exact h1 A hA ⟨htc, hd⟩
    · exact h2 A hA ⟨htc, hd⟩
    · exact h1 A hA ⟨htc, hd⟩
    · exact h3 A hA ⟨htc, Or.inr ⟨hd1, hd2⟩⟩

/-- Witness for C1: with pair (1, 2) registered in category 10, a create
re-using player 1 is rejected with a duplicate error and the store is
unchanged. -/
theorem create_rejects_duplicates_witness :
    (serviceCreateTx
        ⟨[⟨10, 50⟩], [1, 2, 3], [⟨1, 10, 1, 2, 50, "", "", true, ""⟩], [], 2⟩
        ⟨10, 1, 3, 50, none, none, none, none, none⟩).1 =
      ⟨[⟨10, 50⟩], [1, 2, 3], [⟨1, 10, 1, 2, 50, "", "", true, ""⟩], [], 2⟩ ∧
    ∃ e, (serviceCreateTx
        ⟨[⟨10, 50⟩], [1, 2, 3], [⟨1, 10, 1, 2, 50, "", "", true, ""⟩], [], 2⟩
        ⟨10, 1, 3, 50, none, none, none, none, none⟩).2 = .error e ∧
      (e = .duplicatePlayer ∨ e = .duplicatePartner ∨ e = .duplicatePair) :=
  create_rejects_duplicates _ _ ⟨1, 10, 1, 2, 50, "", "", true, ""⟩
    (List.mem_singleton.mpr rfl) rfl (Or.inl rfl)

/-- C10: a successful service create persists payment_reference and comment
with surrounding whitespace stripped (empty when not supplied), is_active
defaulting to true and payment_status defaulting to the empty string when not
supplied, and all remaining supplied values unchanged; the row is stored. -/
theorem create_persists_normalized_fields (db : DB) (a : ServiceArgs)
    (db1 : DB) (r : RegRow) (h : serviceCreate db a = .ok (db1, r)) :
    r.payment_reference = (a.payment_reference.getD "").trim ∧
    r.comment = (a.comment.getD "").trim ∧
    r.is_active = a.is_active.getD true ∧
    r.payment_status = a.payment_status.getD "" ∧
    r.tournament_category = a.tournament_category ∧
    r.player = a.player ∧
    r.partner = a.partner ∧
    r.paid_amount = a.paid_amount ∧
    r ∈ db1.regs := by
  obtain ⟨hr, hmem, -⟩ := serviceCreate_ok_inv h
  subst hr
  exact ⟨rfl, rfl, rfl, rfl, rfl, rfl, rfl, rfl, hmem⟩

/-- Witness for C10: a create with padded payment reference, no is_active and
no payment_status stores the trimmed reference, is_active true and empty
payment_status. -/
theorem create_persists_normalized_fields_witness :
    (⟨2, 10, 1, 2, 50, "  ref  ".trim, "".trim, true, ""⟩ : RegRow).payment_reference =
        ((some "  ref  ").getD "").trim ∧
    (⟨2, 10, 1, 2, 50, "  ref  ".trim, "".trim, true, ""⟩ : RegRow).comment =
        ((none : Option String).getD "").trim ∧
    (⟨2, 10, 1, 2, 50, "  ref  ".trim, "".trim, true, ""⟩ : RegRow).is_active =
        (none : Option Bool).getD true ∧
    (⟨2, 10, 1, 2, 50, "  ref  ".trim, "".trim, true, ""⟩ : RegRow).payment_status =
        (none : Option String).getD "" ∧
    (⟨2, 10, 1, 2, 50, "  ref  ".trim, "".trim, true, ""⟩ : RegRow).tournament_category = 10 ∧
    (⟨2, 10, 1, 2, 50, "  ref  ".trim, "".trim, true, ""⟩ : RegRow).player = 1 ∧
    (⟨2, 10, 1, 2, 50, "  ref  ".trim, "".trim, true, ""⟩ : RegRow).partner = 2 ∧
    (⟨2, 10, 1, 2, 50, "  ref  ".trim, "".trim, true, ""⟩ : RegRow).paid_amount = 50 ∧
    (⟨2, 10, 1, 2, 50, "  ref  ".trim, "".trim, true, ""⟩ : RegRow) ∈
      (⟨[⟨10, 50⟩], [1, 2], [⟨2, 10, 1, 2, 50, "  ref  ".trim, "".trim, true, ""⟩], [], 3⟩ : DB).regs :=
  create_persists_normalized_fields
    ⟨[⟨10, 50⟩], [1, 2], [], [], 2⟩
    ⟨10, 1, 2, 50, some "  ref  ", none, none, none, none⟩
    _ _ rfl

/-- C8: the service create under its transaction either succeeds with the
registration row stored and every supplied slot block stored for it, or fails
with the store exactly as before — never a registration without its slots. -/
theorem create_atomic_with_slots (db : DB) (a : ServiceArgs) :
    (∃ r, (serviceCreateTx db a).2 = .ok r ∧ r ∈ (serviceCreateTx db a).1.regs ∧
      ∀ l, a.unavailability = some l →
        ∀ s ∈ l, rowOfSlot r.id s ∈ (serviceCreateTx db a).1.slots) ∨
    ((serviceCreateTx db a).1 = db ∧ ∃ e, (serviceCreateTx db a).2 = .error e) := by
  cases h : serviceCreate db a with
  | error e =>
    right
    rw [serviceCreateTx, h]
    exact ⟨rfl, e, rfl⟩
  | ok p =>
    left
    obtain ⟨db1, r⟩ := p
    obtain ⟨-, hmem, hslots⟩ := serviceCreate_ok_inv h
    rw [serviceCreateTx, h]
    exact ⟨r, rfl, hmem, hslots⟩

/-- Witness for C8, success side: a create with one slot block stores the
registration row together with its slot row. -/
theorem create_atomic_with_slots_witness :
    (∃ r, (serviceCreateTx (⟨[⟨10, 50⟩], [1, 2], [], [], 1⟩ : DB)
        ⟨10, 1, 2, 50, none, none, none, none, some [⟨0, 540, 600⟩]⟩).2 = .ok r ∧
      r ∈ (serviceCreateTx (⟨[⟨10, 50⟩], [1, 2], [], [], 1⟩ : DB)
        ⟨10, 1, 2, 50, none, none, none, none, some [⟨0, 540, 600⟩]⟩).1.regs ∧
      ∀ l, (some [(⟨0, 540, 600⟩ : SlotRec)]) = some l →
        ∀ s ∈ l, rowOfSlot r.id s ∈ (serviceCreateTx (⟨[⟨10, 50⟩], [1, 2], [], [], 1⟩ : DB)
          ⟨10, 1, 2, 50, none, none, none, none, some [⟨0, 540, 600⟩]⟩).1.slots) ∨
    ((serviceCreateTx (⟨[⟨10, 50⟩], [1, 2], [], [], 1⟩ : DB)
        ⟨10, 1, 2, 50, none, none, none, none, some [⟨0, 540, 600⟩]⟩).1 =
      (⟨[⟨10, 50⟩], [1, 2], [], [], 1⟩ : DB) ∧
      ∃ e, (serviceCreateTx (⟨[⟨10, 50⟩], [1, 2], [], [], 1⟩ : DB)
        ⟨10, 1, 2, 50, none, none, none, none, some [⟨0, 540, 600⟩]⟩).2 = .error e) :=
  create_atomic_with_slots ⟨[⟨10, 50⟩], [1, 2], [], [], 1⟩
    ⟨10, 1, 2, 50, none, none, none, none, some [⟨0, 540, 600⟩]⟩

/-- The duplicate pass of the parent serializer validate can only fail with
the duplicate-slot error. -/
lemma dupCheck_err : ∀ (l seen : List SlotRec) {e : RegError},
    dupCheck l seen = .error e → e = .duplicateSlot := by
  intro l
  induction l with
  | nil => intro seen e h; cases h
  | cons b rest ih =>
    intro seen e h
    rw [dupCheck] at h
    split at h
    · cases h; rfl
    · exact ih _ h

/-- The child serializer validation can only fail with the structural slot
errors. -/
lemma childValidateSlots_err : ∀ (l : List SlotRec) {e : RegError},
    childValidateSlots l = .error e → e = .invalidSlotRange ∨ e = .invalidSlotOrder := by
  intro l
  induction l with
  | nil => intro e h; cases h
  | cons b rest ih =>
    intro e h
    rw [childValidateSlots] at h
    split at h
    · cases h; exact Or.inl rfl
    · split at h
      · cases h; exact Or.inr rfl
      · exact ih h

/-- Phase (b) can only fail with an overlap error. -/
lemma phaseB_err {l : List SlotRec} {e : RegError} (h : phaseB l = .error e) :
    ∃ d, e = .overlappingSlot d := by
  rw [phaseB, phaseBGo_eq] at h
  split at h
  case _ d heq => cases h; exact ⟨d, rfl⟩
  case _ => cases h

/-- The unavailability part of the parent serializer validate can only fail
with the duplicate-slot or an overlap error. -/
lemma serializerSlotChecks_err {u : Option (List SlotRec)} {e : RegError}
    (h : serializerSlotChecks u = .error e) :
    e = .duplicateSlot ∨ ∃ d, e = .overlappingSlot d := by
  match u with
  | none => cases h
  | some l =>
    rw [serializerSlotChecks] at h
    split at h
    case _ e' heq =>
      cases h
      exact Or.inl (dupCheck_err l [] heq)
    case _ => exact Or.inr (phaseB_err h)

/-- C6: a create request whose player equals its partner and whose fields
otherwise pass the field phase is answered 400 with the invalid-pair error
and the store is unchanged — nothing is persisted. -/
theorem create_same_person_rejected (db : DB) (p : CreatePayload)
    (hf : fieldPhaseCreate db p = .ok ()) (hpp : p.player = p.partner) :
    postRegistration db p = (db, .s400, some .invalidPair) := by
  have hcv : crossValidateCreate db p = .error .invalidPair := by
    rw [crossValidateCreate, if_pos (by simpa using hpp)]
  simp [postRegistration, hf, hcv]

/-- Witness for C6: a concrete create naming player 1 both as player and as
partner is answered 400 with the invalid-pair error, store unchanged. -/
theorem create_same_person_rejected_witness :
    postRegistration ⟨[⟨10, 50⟩], [1, 2], [], [], 1⟩
        ⟨10, 1, 1, 50, none, none, none, none, none⟩ =
      (⟨[⟨10, 50⟩], [1, 2], [], [], 1⟩, .s400, some .invalidPair) :=
  create_same_person_rejected ⟨[⟨10, 50⟩], [1, 2], [], [], 1⟩
    ⟨10, 1, 1, 50, none, none, none, none, none⟩ rfl rfl

/-- C7: with player and partner distinct and the category resolved, a create
whose paid amount differs from the category price fails the serializer
validate with the price-mismatch error, and one whose paid amount equals the
price never fails with it; likewise for an update supplying a paid amount. -/
theorem price_reconciliation (db : DB) (p : CreatePayload) (t : TCRow)
    (reg : RegRow) (q : PatchPayload) (m : Int) (t2 : TCRow)
    (hne : ¬ p.player = p.partner)
    (ht : db.tcs.find? (fun c => c.id == p.tournament_category) = some t)
    (hm : q.paid_amount = some m)
    (hne2 : ¬ q.player.getD reg.player = q.partner.getD reg.partner)
    (ht2 : db.tcs.find? (fun c => c.id == q.tournament_category.getD reg.tournament_category) =
      some t2) :
    ((¬ p.paid_amount = t.price → crossValidateCreate db p = .error .priceMismatch) ∧
      (p.paid_amount = t.price → crossValidateCreate db p ≠ .error .priceMismatch)) ∧
    ((¬ m = t2.price → crossValidatePatch db reg q = .error .priceMismatch) ∧
      (m = t2.price → crossValidatePatch db reg q ≠ .error .priceMismatch)) := by
  constructor
  · constructor
    · intro hbad
      simp only [crossValidateCreate, ht]
      rw [if_neg (by simpa using hne), if_pos (by simpa using hbad)]
    · intro hgood hcontra
      simp only [crossValidateCreate, ht] at hcontra
      rw [if_neg (by simpa using hne), if_neg (by simpa using hgood)] at hcontra
      rcases serializerSlotChecks_err hcontra with h | ⟨d, h⟩ <;> cases h
  · constructor
    · intro hbad
      simp only [crossValidatePatch, hm, Option.getD_some, ht2]
      rw [if_neg (by simpa using hne2), if_pos (by simpa using hbad)]
    · intro hgood hcontra
      simp only [crossValidatePatch, hm, Option.getD_some, ht2] at hcontra
      rw [if_neg (by simpa using hne2), if_neg (by simpa using hgood)] at hcontra
      rcases serializerSlotChecks_err hcontra with h | ⟨d, h⟩ <;> cases h

/-- Witness for C7: with category price 50, paid 49 is rejected with the
price-mismatch error and paid 50 is not, on both the create and the update
validate paths. -/
theorem price_reconciliation_witness :
    crossValidateCreate ⟨[⟨10, 50⟩], [1, 2], [⟨5, 10, 1, 2, 50, "", "", true, ""⟩], [], 6⟩
        ⟨10, 1, 2, 49, none, none, none, none, none⟩ = .error .priceMismatch ∧
    crossValidateCreate ⟨[⟨10, 50⟩], [1, 2], [⟨5, 10, 1, 2, 50, "", "", true, ""⟩], [], 6⟩
        ⟨10, 1, 2, 50, none, none, none, none, none⟩ ≠ .error .priceMismatch ∧
    crossValidatePatch ⟨[⟨10, 50⟩], [1, 2], [⟨5, 10, 1, 2, 50, "", "", true, ""⟩], [], 6⟩
        ⟨5, 10, 1, 2, 50, "", "", true, ""⟩
        ⟨none, none, none, some 49, none, none, none, none, none⟩ = .error .priceMismatch ∧
    crossValidatePatch ⟨[⟨10, 50⟩], [1, 2], [⟨5, 10, 1, 2, 50, "", "", true, ""⟩], [], 6⟩
        ⟨5, 10, 1, 2, 50, "", "", true, ""⟩
        ⟨none, none, none, some 50, none, none, none, none, none⟩ ≠ .error .priceMismatch := by
  refine ⟨?_, ?_, ?_, ?_⟩
  · exact (price_reconciliation ⟨[⟨10, 50⟩], [1, 2], [⟨5, 10, 1, 2, 50, "", "", true, ""⟩], [], 6⟩ ⟨10, 1, 2, 49, none, none, none, none, none⟩ ⟨10, 50⟩
      ⟨5, 10, 1, 2, 50, "", "", true, ""⟩
      ⟨none, none, none, some 49, none, none, none, none, none⟩ 49 ⟨10, 50⟩
      (by decide) rfl rfl (by decide) rfl).1.1 (by decide)
  · exact (price_reconciliation ⟨[⟨10, 50⟩], [1, 2], [⟨5, 10, 1, 2, 50, "", "", true, ""⟩], [], 6⟩ ⟨10, 1, 2, 50, none, none, none, none, none⟩ ⟨10, 50⟩
      ⟨5, 10, 1, 2, 50, "", "", true, ""⟩
      ⟨none, none, none, some 50, none, none, none, none, none⟩ 50 ⟨10, 50⟩
      (by decide) rfl rfl (by decide) rfl).1.2 (by decide)
  · exact (price_reconciliation ⟨[⟨10, 50⟩], [1, 2], [⟨5, 10, 1, 2, 50, "", "", true, ""⟩], [], 6⟩ ⟨10, 1, 2, 49, none, none, none, none, none⟩ ⟨10, 50⟩
      ⟨5, 10, 1, 2, 50, "", "", true, ""⟩
      ⟨none, none, none, some 49, none, none, none, none, none⟩ 49 ⟨10, 50⟩
      (by decide) rfl rfl (by decide) rfl).2.1 (by decide)
  · exact (price_reconciliation ⟨[⟨10, 50⟩], [1, 2], [⟨5, 10, 1, 2, 50, "", "", true, ""⟩], [], 6⟩ ⟨10, 1, 2, 50, none, none, none, none, none⟩ ⟨10, 50⟩
      ⟨5, 10, 1, 2, 50, "", "", true, ""⟩
      ⟨none, none, none, some 50, none, none, none, none, none⟩ 50 ⟨10, 50⟩
      (by decide) rfl rfl (by decide) rfl).2.2 (by decide)

/-- C2: on a slot list whose blocks individually pass the structural checks
(day in 0..4, start before end, no exact duplicates), the validator fails
with an overlap error naming a day exactly when some day group, sorted by
start time ascending, has a record whose start is strictly below the previous
record of the group end; touching boundaries are accepted. -/
theorem validator_overlap_exact (l : List SlotRec)
    (h1 : ∀ b ∈ l, 0 ≤ b.day_of_week ∧ b.day_of_week ≤ 4 ∧ b.start_time < b.end_time)
    (h2 : l.Nodup) :
    ((∀ d ∈ daysInOrder l, dayOverlaps l d = false) →
        validateUnavailability (some l) = .ok l) ∧
    ((∃ d ∈ daysInOrder l, dayOverlaps l d = true) →
        ∃ d ∈ daysInOrder l, dayOverlaps l d = true ∧
          validateUnavailability (some l) = .error (.overlappingSlot d)) := by
  by_cases hl : l.isEmpty
  · rw [List.isEmpty_iff.mp hl]
    constructor
    · intro _; rfl
    · rintro ⟨d, hd, _⟩
      simp [daysInOrder, firstOccs] at hd
  · have hA : phaseA l [] = .ok () := by
      apply phaseA_ok
      · intro b hb
        obtain ⟨hb1, hb2, hb3⟩ := h1 b hb
        exact ⟨hb1, hb2, hb3, List.not_mem_nil b⟩
      · exact h2
    have hval : validateUnavailability (some l) =
        match (daysInOrder l).find? (fun d => dayOverlaps l d) with
        | some d => .error (.overlappingSlot d)
        | none => .ok l := by
      simp only [validateUnavailability, if_neg hl, hA, phaseB, phaseBGo_eq]
      cases (daysInOrder l).find? (fun d => dayOverlaps l d) <;> rfl
    constructor
    · intro hno
      have hfind : (daysInOrder l).find? (fun d => dayOverlaps l d) = none := by
        rw [List.find?_eq_none]
        intro d hd
        simp [hno d hd]
      rw [hfind] at hval
      exact hval
    · rintro ⟨d, hd, hov⟩
      cases hfind : (daysInOrder l).find? (fun d => dayOverlaps l d) with
      | none =>
        rw [List.find?_eq_none] at hfind
        exact absurd hov (by simpa using hfind d hd)
      | some d' =>
        refine ⟨d', List.mem_of_find?_eq_some hfind, by simpa using List.find?_some hfind, ?_⟩
        rw [hfind] at hval
        exact hval

/-- Witness for C2, the concrete scenarios of the specification: two slots of
day 0 touching at 10:00 validate, and a slot starting 10:00 strictly inside a
9:00-10:30 slot is rejected with the overlap error for day 0. -/
theorem validator_overlap_exact_witness :
    validateUnavailability (some [⟨0, 540, 600⟩, ⟨0, 600, 660⟩]) =
      .ok [⟨0, 540, 600⟩, ⟨0, 600, 660⟩] ∧
    (∃ d ∈ daysInOrder [⟨0, 540, 630⟩, ⟨0, 600, 660⟩],
      dayOverlaps [⟨0, 540, 630⟩, ⟨0, 600, 660⟩] d = true ∧
        validateUnavailability (some [⟨0, 540, 630⟩, ⟨0, 600, 660⟩]) =
          .error (.overlappingSlot d)) := by
  constructor
  · exact (validator_overlap_exact _ (by decide) (by decide)).1 (by decide)
  · exact (validator_overlap_exact _ (by decide) (by decide)).2 (by decide)

/-- C9: whenever the validator accepts a slot list, running it again on the
returned normalized list accepts as well and returns that list unchanged. -/
theorem validator_idempotent (u : Option (List SlotRec)) (n : List SlotRec)
    (h : validateUnavailability u = .ok n) :
    validateUnavailability (some n) = .ok n := by
  rcases validate_ok_inv h with ⟨hu, hn⟩ | hu
  · rw [hn]; rfl
  · rw [← hu]; exact h

/-- Witness for C9: the validator accepts a two-day list and re-running it on
the output returns the same list. -/
theorem validator_idempotent_witness :
    validateUnavailability (some [⟨0, 540, 600⟩, ⟨2, 600, 660⟩]) =
      .ok [⟨0, 540, 600⟩, ⟨2, 600, 660⟩] :=
  validator_idempotent (some [⟨0, 540, 600⟩, ⟨2, 600, 660⟩]) _ (by rfl)

/-- Filtering for one registration after having filtered it away yields
nothing. -/
lemma filter_clear_nil (pk : Nat) (xs : List SlotRow) :
    (xs.filter (fun s => !(s.registration == pk))).filter
      (fun s => s.registration == pk) = [] := by
  rw [List.filter_filter]
  rw [List.filter_eq_nil_iff]
  intro a _
  simp

/-- Every row produced from blocks for a registration belongs to it, so the
filter for that registration keeps them all. -/
lemma filter_rowOf_self (pk : Nat) (l : List SlotRec) :
    (l.map (rowOfSlot pk)).filter (fun s => s.registration == pk) =
      l.map (rowOfSlot pk) := by
  rw [List.filter_eq_self]
  intro a ha
  rcases List.mem_map.mp ha with ⟨s, _, rfl⟩
  simp [rowOfSlot]

/-- C3: a PATCH without the unavailability key leaves the slot set of the
registration unchanged (whatever the outcome), and a PATCH carrying the key
that succeeds leaves the slot set exactly equal to the rows of the supplied
list — full replacement, empty list meaning delete all. -/
theorem update_slot_replacement (db : DB) (pk : Nat) (p : PatchPayload) :
    (p.unavailability = none →
      slotsOf (patchRegistration db pk p).1 pk = slotsOf db pk) ∧
    (∀ l, p.unavailability = some l → (patchRegistration db pk p).2.1 = .s200 →
      slotsOf (patchRegistration db pk p).1 pk = l.map (rowOfSlot pk)) := by
  rw [patchRegistration]
  split
  · exact ⟨fun _ => rfl, fun l hl hst => nomatch hst⟩
  split
  · exact ⟨fun _ => rfl, fun l hl hst => nomatch hst⟩
  split
  · exact ⟨fun _ => rfl, fun l hl hst => nomatch hst⟩
  split
  · exact ⟨fun _ => rfl, fun l hl hst => nomatch hst⟩
  split
  · exact ⟨fun _ => rfl, fun l hl hst => nomatch hst⟩
  split
  case _ hnone =>
    refine ⟨fun _ => rfl, fun l hl hst => ?_⟩
    rw [hnone] at hl
    cases hl
  case _ unav hsome =>
    split
    case _ e heq =>
      refine ⟨fun _ => rfl, fun l hl hst => nomatch hst⟩
    case _ db3 heq =>
      constructor
      · intro hcontra
        rw [hcontra] at hsome
        cases hsome
      · intro l hl hst
        rw [hsome] at hl
        cases hl
        obtain ⟨-, -, -, -, hslots⟩ := insertSlots_ok_inv _ _ _ _ heq
        rw [slotsOf, hslots, List.filter_append]
        rw [clearSlots, regsUpdated]
        simp only []
        rw [filter_clear_nil, filter_rowOf_self, List.nil_append]

/-- Witness for C3: for a registration with one stored slot, a PATCH without
the key keeps the slot set, a PATCH with the empty list clears it, and a
PATCH with a one-block list replaces it by exactly that block. -/
theorem update_slot_replacement_witness :
    slotsOf (patchRegistration
        ⟨[⟨10, 50⟩], [1, 2], [⟨7, 10, 1, 2, 50, "", "", true, ""⟩], [⟨7, 0, 540, 600⟩], 8⟩ 7
        ⟨none, none, none, none, none, none, none, none, none⟩).1 7 =
      slotsOf ⟨[⟨10, 50⟩], [1, 2], [⟨7, 10, 1, 2, 50, "", "", true, ""⟩], [⟨7, 0, 540, 600⟩], 8⟩ 7 ∧
    slotsOf (patchRegistration
        ⟨[⟨10, 50⟩], [1, 2], [⟨7, 10, 1, 2, 50, "", "", true, ""⟩], [⟨7, 0, 540, 600⟩], 8⟩ 7
        ⟨none, none, none, none, none, none, none, none, some []⟩).1 7 =
      List.map (rowOfSlot 7) [] ∧
    slotsOf (patchRegistration
        ⟨[⟨10, 50⟩], [1, 2], [⟨7, 10, 1, 2, 50, "", "", true, ""⟩], [⟨7, 0, 540, 600⟩], 8⟩ 7
        ⟨none, none, none, none, none, none, none, none, some [⟨1, 600, 660⟩]⟩).1 7 =
      List.map (rowOfSlot 7) [⟨1, 600, 660⟩] := by
  refine ⟨?_, ?_, ?_⟩
  · exact (update_slot_replacement _ 7 _).1 rfl
  · exact (update_slot_replacement _ 7 _).2 [] rfl (by rfl)
  · exact (update_slot_replacement _ 7 _).2 [⟨1, 600, 660⟩] rfl (by rfl)

/-- The field phase of a PATCH can only fail with a reference, amount or
structural slot error — never a duplicate error. -/
lemma fieldPhasePatch_err {db : DB} {q : PatchPayload} {e : RegError}
    (h : fieldPhasePatch db q = .error e) :
    e = .badReference ∨ e = .invalidAmount ∨
      e = .invalidSlotRange ∨ e = .invalidSlotOrder := by
  rw [fieldPhasePatch] at h
  split at h
  · cases h; exact Or.inl rfl
  split at h
  · cases h; exact Or.inl rfl
  split at h
  · cases h; exact Or.inl rfl
  split at h
  · cases h; exact Or.inr (Or.inl rfl)
  split at h
  · cases h
  · rcases childValidateSlots_err _ h with h1 | h1
    · exact Or.inr (Or.inr (Or.inl h1))
    · exact Or.inr (Or.inr (Or.inr h1))

/-- The serializer validate of a PATCH can only fail with the pair, category,
price or slot errors — never a duplicate error. -/
lemma crossValidatePatch_err {db : DB} {reg : RegRow} {q : PatchPayload} {e : RegError}
    (h : crossValidatePatch db reg q = .error e) :
    e = .invalidPair ∨ e = .noCategory ∨ e = .priceMismatch ∨
      e = .duplicateSlot ∨ ∃ d, e = .overlappingSlot d := by
  simp only [crossValidatePatch] at h
  split at h
  · cases h; exact Or.inl rfl
  split at h
  · cases h; exact Or.inr (Or.inl rfl)
  · split at h
    · cases h; exact Or.inr (Or.inr (Or.inl rfl))
    · rcases serializerSlotChecks_err h with h1 | h1
      · exact Or.inr (Or.inr (Or.inr (Or.inl h1)))
      · exact Or.inr (Or.inr (Or.inr (Or.inr h1)))

/-- Counterexample to C4: with pairs (1, 2) and (3, 4) registered in category
10, a PATCH turning registration 2 into the pair (2, 1) — the reversed pair
of the OTHER registration in the same category — succeeds with 200 and no
error, persisting the colliding pair instead of failing with a duplicate
error as the claim states. -/
theorem update_reversed_pair_counterexample :
    (patchRegistration
        ⟨[⟨10, 50⟩], [1, 2, 3, 4],
          [⟨1, 10, 1, 2, 50, "", "", true, ""⟩, ⟨2, 10, 3, 4, 50, "", "", true, ""⟩], [], 3⟩ 2
        ⟨none, some 2, some 1, none, none, none, none, none, none⟩).2.1 = .s200 ∧
    (patchRegistration
        ⟨[⟨10, 50⟩], [1, 2, 3, 4],
          [⟨1, 10, 1, 2, 50, "", "", true, ""⟩, ⟨2, 10, 3, 4, 50, "", "", true, ""⟩], [], 3⟩ 2
        ⟨none, some 2, some 1, none, none, none, none, none, none⟩).2.2 = none ∧
    (∃ A ∈ (⟨[⟨10, 50⟩], [1, 2, 3, 4],
          [⟨1, 10, 1, 2, 50, "", "", true, ""⟩, ⟨2, 10, 3, 4, 50, "", "", true, ""⟩], [], 3⟩ : DB).regs,
      ¬ A.id = 2 ∧ A.tournament_category = 10 ∧ A.player = 1 ∧ A.partner = 2) ∧
    ∃ B ∈ (patchRegistration
        ⟨[⟨10, 50⟩], [1, 2, 3, 4],
          [⟨1, 10, 1, 2, 50, "", "", true, ""⟩, ⟨2, 10, 3, 4, 50, "", "", true, ""⟩], [], 3⟩ 2
        ⟨none, some 2, some 1, none, none, none, none, none, none⟩).1.regs,
      B.id = 2 ∧ B.tournament_category = 10 ∧ B.player = 2 ∧ B.partner = 1 := by
  decide

/-- C4 as amended: the update path re-runs none of the duplicate pre-checks
of create, so a PATCH never fails with a duplicate-participant or
duplicate-pair error (in particular re-submitting its own pair cannot
self-collide); a collision with a different registration is caught only by
the storage unique constraints on the same role or same-order pair,
surfacing as a storage conflict answered 400. -/
theorem update_no_duplicate_prechecks :
    (∀ (db : DB) (pk : Nat) (q : PatchPayload) (e : RegError),
      (patchRegistration db pk q).2.2 = some e →
      ¬ e = .duplicatePlayer ∧ ¬ e = .duplicatePartner ∧ ¬ e = .duplicatePair) ∧
    (∀ (db : DB) (reg : RegRow) (q : PatchPayload) (other : RegRow),
      db.regs.find? (fun r => r.id == reg.id) = some reg →
      fieldPhasePatch db q = .ok () →
      crossValidatePatch db reg q = .ok () →
      0 ≤ (applyPatch reg q).paid_amount →
      other ∈ db.regs → ¬ other.id = reg.id →
      other.tournament_category = (applyPatch reg q).tournament_category →
      (other.player = (applyPatch reg q).player ∨ other.partner = (applyPatch reg q).partner) →
      patchRegistration db reg.id q = (db, .s400, some .storageConflict)) := by
  constructor
  · intro db pk q e h
    rw [patchRegistration] at h
    split at h
    · cases h; exact ⟨by decide, by decide, by decide⟩
    split at h
    case _ e' heq =>
      cases h
      rcases fieldPhasePatch_err heq with h1 | h1 | h1 | h1 <;> subst h1 <;>
        exact ⟨by decide, by decide, by decide⟩
    split at h
    case _ e' heq =>
      cases h
      rcases crossValidatePatch_err heq with h1 | h1 | h1 | h1 | ⟨d, h1⟩ <;> subst h1 <;>
        exact ⟨by simp, by simp, by simp⟩
    split at h
    · cases h; exact ⟨by decide, by decide, by decide⟩
    split at h
    · cases h; exact ⟨by decide, by decide, by decide⟩
    split at h
    · cases h
    · split at h
      · cases h; exact ⟨by decide, by decide, by decide⟩
      · cases h
  · intro db reg q other hfind hf hcv hpaid hmem hne htc hrole
    have hviol : regViolates (db.regs.filter (fun r => !(r.id == reg.id)))
        (applyPatch reg q) = true := by
      rw [regViolates]
      simp only [Bool.or_eq_true]
      refine Or.inr ?_
      rw [List.any_eq_true]
      refine ⟨other, List.mem_filter.mpr ⟨hmem, by simp [hne]⟩, ?_⟩
      have hid : (applyPatch reg q).id = reg.id := rfl
      rcases hrole with h | h <;> simp [hid, hne, htc, h]
    simp only [patchRegistration, hfind, hf, hcv]
    rw [if_neg (by omega), if_pos hviol]

/-- Witness for the amended C4: a PATCH that cannot find its registration
fails with an error that is not a duplicate error, and a PATCH moving
registration 2 onto player 1 — already the player of registration 1 in the
same category — is answered 400 with the storage conflict. -/
theorem update_no_duplicate_prechecks_witness :
    (¬ RegError.notFound = .duplicatePlayer ∧ ¬ RegError.notFound = .duplicatePartner ∧
      ¬ RegError.notFound = .duplicatePair) ∧
    patchRegistration
        ⟨[⟨10, 50⟩], [1, 2, 3, 4],
          [⟨1, 10, 1, 2, 50, "", "", true, ""⟩, ⟨2, 10, 3, 4, 50, "", "", true, ""⟩], [], 3⟩ 2
        ⟨none, some 1, none, none, none, none, none, none, none⟩ =
      (⟨[⟨10, 50⟩], [1, 2, 3, 4],
          [⟨1, 10, 1, 2, 50, "", "", true, ""⟩, ⟨2, 10, 3, 4, 50, "", "", true, ""⟩], [], 3⟩,
        .s400, some .storageConflict) := by
  constructor
  · exact update_no_duplicate_prechecks.1 ⟨[], [], [], [], 0⟩ 1
      ⟨none, none, none, none, none, none, none, none, none⟩ .notFound rfl
  · exact update_no_duplicate_prechecks.2
      ⟨[⟨10, 50⟩], [1, 2, 3, 4],
        [⟨1, 10, 1, 2, 50, "", "", true, ""⟩, ⟨2, 10, 3, 4, 50, "", "", true, ""⟩], [], 3⟩
      ⟨2, 10, 3, 4, 50, "", "", true, ""⟩
      ⟨none, some 1, none, none, none, none, none, none, none⟩
      ⟨1, 10, 1, 2, 50, "", "", true, ""⟩
      rfl rfl rfl (by decide) (by decide) (by decide) rfl (Or.inl rfl)

/-- A POST is answered either 400 with an error or 201 with none. -/
lemma post_shape (db : DB) (p : CreatePayload) :
    (∃ e, postRegistration db p = (db, .s400, some e)) ∨
    ∃ db1, postRegistration db p = (db1, .s201, none) := by
  rw [postRegistration]
  split
  · exact Or.inl ⟨_, rfl⟩
  split
  · exact Or.inl ⟨_, rfl⟩
  split
  · exact Or.inl ⟨_, rfl⟩
  · exact Or.inr ⟨_, rfl⟩

/-- A PATCH is answered 404 on a missing registration, 400 with an error, or
200 with none. -/
lemma patch_shape (db : DB) (pk : Nat) (q : PatchPayload) :
    patchRegistration db pk q = (db, .s404, some .notFound) ∨
    (∃ e, patchRegistration db pk q = (db, .s400, some e)) ∨
    ∃ db1, patchRegistration db pk q = (db1, .s200, none) := by
  rw [patchRegistration]
  split
  · exact Or.inl rfl
  split
  · exact Or.inr (Or.inl ⟨_, rfl⟩)
  split
  · exact Or.inr (Or.inl ⟨_, rfl⟩)
  split
  · exact Or.inr (Or.inl ⟨_, rfl⟩)
  split
  · exact Or.inr (Or.inl ⟨_, rfl⟩)
  split
  · exact Or.inr (Or.inr ⟨_, rfl⟩)
  · split
    · exact Or.inr (Or.inl ⟨_, rfl⟩)
    · exact Or.inr (Or.inr ⟨_, rfl⟩)

/-- C5 as amended: the registration endpoints never answer 409; every POST
rejection — uniqueness conflicts from the pre-checks or from the storage
constraints included — is answered 400, and every PATCH rejection carrying a
duplicate or storage-conflict error is answered 400 as well. -/
theorem conflict_status_400_never_409 :
    (∀ (db : DB) (p : CreatePayload),
      ¬ (postRegistration db p).2.1 = .s409 ∧
      (∀ e, (postRegistration db p).2.2 = some e → (postRegistration db p).2.1 = .s400)) ∧
    (∀ (db : DB) (pk : Nat) (q : PatchPayload),
      ¬ (patchRegistration db pk q).2.1 = .s409 ∧
      (∀ e, (patchRegistration db pk q).2.2 = some e →
        (e = .duplicatePlayer ∨ e = .duplicatePartner ∨ e = .duplicatePair ∨
          e = .storageConflict) →
        (patchRegistration db pk q).2.1 = .s400)) := by
  constructor
  · intro db p
    rcases post_shape db p with ⟨e, he⟩ | ⟨db1, he⟩ <;> rw [he]
    · exact ⟨(fun hc => nomatch hc), fun e' _ => rfl⟩
    · exact ⟨(fun hc => nomatch hc), fun e' h => nomatch h⟩
  · intro db pk q
    rcases patch_shape db pk q with he | ⟨e, he⟩ | ⟨db1, he⟩ <;> rw [he]
    · refine ⟨(fun hc => nomatch hc), fun e' h hconf => ?_⟩
      cases h
      rcases hconf with h1 | h1 | h1 | h1 <;> cases h1
    · exact ⟨(fun hc => nomatch hc), fun e' _ _ => rfl⟩
    · exact ⟨(fun hc => nomatch hc), fun e' h _ => nomatch h⟩

/-- Counterexample to C5: a create conflicting on an already registered
player is answered 400, not 409 as the claim states. -/
theorem conflict_status_counterexample :
    (postRegistration ⟨[⟨10, 50⟩], [1, 2, 3], [⟨1, 10, 1, 2, 50, "", "", true, ""⟩], [], 2⟩
        ⟨10, 1, 3, 50, none, none, none, none, none⟩).2.2 = some .duplicatePlayer ∧
    (postRegistration ⟨[⟨10, 50⟩], [1, 2, 3], [⟨1, 10, 1, 2, 50, "", "", true, ""⟩], [], 2⟩
        ⟨10, 1, 3, 50, none, none, none, none, none⟩).2.1 = .s400 ∧
    ¬ (postRegistration ⟨[⟨10, 50⟩], [1, 2, 3], [⟨1, 10, 1, 2, 50, "", "", true, ""⟩], [], 2⟩
        ⟨10, 1, 3, 50, none, none, none, none, none⟩).2.1 = .s409 := by
  decide

/-- Witness for the amended C5: the duplicate-player POST rejection and a
storage-conflict PATCH rejection are both answered 400, and the POST is not
answered 409. -/
theorem conflict_status_400_never_409_witness :
    (postRegistration ⟨[⟨10, 50⟩], [1, 2, 3], [⟨1, 10, 1, 2, 50, "", "", true, ""⟩], [], 2⟩
        ⟨10, 1, 3, 50, none, none, none, none, none⟩).2.1 = .s400 ∧
    (patchRegistration
        ⟨[⟨20, 50⟩], [1, 2, 3, 4],
          [⟨1, 20, 1, 2, 50, "", "", true, ""⟩, ⟨2, 20, 3, 4, 50, "", "", true, ""⟩], [], 3⟩ 2
        ⟨none, none, some 2, none, none, none, none, none, none⟩).2.1 = .s400 ∧
    ¬ (postRegistration ⟨[⟨10, 50⟩], [1, 2, 3], [⟨1, 10, 1, 2, 50, "", "", true, ""⟩], [], 2⟩
        ⟨10, 1, 3, 50, none, none, none, none, none⟩).2.1 = .s409 := by
  refine ⟨?_, ?_, ?_⟩
  · exact (conflict_status_400_never_409.1
      ⟨[⟨10, 50⟩], [1, 2, 3], [⟨1, 10, 1, 2, 50, "", "", true, ""⟩], [], 2⟩
      ⟨10, 1, 3, 50, none, none, none, none, none⟩).2 .duplicatePlayer rfl
  · exact (conflict_status_400_never_409.2
      ⟨[⟨20, 50⟩], [1, 2, 3, 4],
        [⟨1, 20, 1, 2, 50, "", "", true, ""⟩, ⟨2, 20, 3, 4, 50, "", "", true, ""⟩], [], 3⟩ 2
      ⟨none, none, some 2, none, none, none, none, none, none⟩).2 .storageConflict rfl
      (Or.inr (Or.inr (Or.inr rfl)))
  · exact (conflict_status_400_never_409.1
      ⟨[⟨10, 50⟩], [1, 2, 3], [⟨1, 10, 1, 2, 50, "", "", true, ""⟩], [], 2⟩
      ⟨10, 1, 3, 50, none, none, none, none, none⟩).1
